import Mathlib

/-!
Verification of the FlatCAM `appGUI.preferences` module initializer
(`src/appGUI/preferences/__init__.py`), shallowly embedded:

  fcTranslate.apply_language('strings')
  if '_' not in builtins.__dict__:
      _ = gettext.gettext

  settings = QSettings("Open Source", "FlatCAM")
  if settings.contains("machinist"):
      machinist_setting = settings.value('machinist', type=int)
  else:
      machinist_setting = 0

External pieces (QSettings, gettext, appTranslation.apply_language) are
not under `src/` and are modelled from the specification's contracts;
each such definition says so in its doc comment.
-/

/-- Python-level runtime errors that the embedded operations can surface. -/
inductive PyErr where
  | typeError
deriving DecidableEq

/-- A Python value bindable to the translator name: a callable from
strings to strings, or a non-callable value (an integer or a string). -/
inductive PyVal where
  | func : (String → String) → PyVal
  | int : Int → PyVal
  | str : String → PyVal

/-- Calling a Python value on a string: succeeds only for callables;
calling a non-callable raises `TypeError`, modelled as `none`. -/
def PyVal.call : PyVal → String → Option String
  | .func f, s => some (f s)
  | _, _ => none

/-- Whether a Python value is callable: exactly the function values. -/
def PyVal.isCallable : PyVal → Bool
  | .func _ => true
  | _ => false

/-- A value stored in the settings store. QSettings keeps loosely typed
values; this fragment only reads them with `type=int`. -/
inductive QVal where
  | qint : Int → QVal
  | qstr : String → QVal
deriving DecidableEq

/-- Modelled from the spec: the settings store is "a process-wide,
persistent, key-value store"; "Keys are strings; values are typed". -/
abbrev Store := List (String × QVal)

/-- Raw lookup of a key in the store (first binding wins). -/
def Store.rawValue : Store → String → Option QVal
  | [], _ => none
  | (k', v) :: rest, k => if k' == k then some v else Store.rawValue rest k

/-- Modelled from the spec: `settings.contains(k)` — whether the key
exists in the store. -/
def Store.contains (st : Store) (k : String) : Bool :=
  st.any (fun p => p.1 == k)

/-- Modelled from the spec: coercion of a stored value to integer, as in
"return its value coerced to integer"; a non-numeric string cannot be
coerced and raises `TypeError`. -/
def coerceInt : QVal → Except PyErr Int
  | .qint n => .ok n
  | .qstr s =>
    match s.toInt? with
    | some n => .ok n
    | none => .error .typeError

/-- Modelled from the spec: the typed read `settings.value(k, type=int)`
with its missing-key result made explicit as the parameter `onMissing`. -/
def Store.valueIntAux (st : Store) (k : String) (onMissing : Except PyErr Int) :
    Except PyErr Int :=
  match st.rawValue k with
  | some v => coerceInt v
  | none => onMissing

/-- `settings.value(k, type=int)`: the stored value coerced to integer,
and the zero value of the requested type when the key is missing. -/
def Store.valueInt (st : Store) (k : String) : Except PyErr Int :=
  st.valueIntAux k (.ok 0)

/-- Lines 13-16 of the module: `machinist_setting` as computed from the
open settings store. -/
def machinist_setting (st : Store) : Except PyErr Int :=
  if st.contains "machinist" then st.valueInt "machinist" else .ok 0

/-- The lines 13-16 read together with the store it leaves behind.
Modelled from the spec: the read is pure, "Side effects: none". -/
def machinistLoad (st : Store) : Store × Except PyErr Int :=
  (st, machinist_setting st)

/-- Modelled from the spec: the platform's persistent storage, a map
from (organization, application) pairs to stores. -/
abbrev World := List ((String × String) × Store)

/-- Modelled from the spec: `QSettings(org, app)` opens the store for
the given pair, leaving all persisted data unchanged, and lazily
produces an empty store when none existed. -/
def QSettingsOpen (w : World) (org app : String) : World × Store :=
  (w, (List.lookup (org, app) w).getD [])

/-- Modelled from the spec: Python's `gettext.gettext` with no catalog
bound to the default domain is the "pass-through (identity) translator". -/
def gettext_gettext : String → String := fun s => s

/-- The bindings of the translator name visible to the module: the
interpreter-wide entry in `builtins.__dict__` and the module-level
binding. The latter is empty when module execution starts, because
`from ... import *` never imports names beginning with an underscore. -/
structure NS where
  builtins : Option PyVal
  moduleNs : Option PyVal

/-- Python name resolution for the translator name inside the module:
the module-level binding shadows the builtins binding. -/
def NS.effTranslator (ns : NS) : Option PyVal :=
  match ns.moduleNs with
  | some v => some v
  | none => ns.builtins

/-- Translating a string through the currently visible translator
binding: `none` when no binding exists or it is not callable. -/
def NS.translate (ns : NS) (s : String) : Option String :=
  match ns.effTranslator with
  | some v => v.call s
  | none => none

/-- Modelled from the spec: `fcTranslate.apply_language('strings')`
(in `appTranslation`, not under `src/`): activates the locale's
translation catalog, installing its translation function process-wide
(into builtins); when no catalog is found it "falls back silently" and
changes nothing, raising no error. The catalog is `some f` when one is
found for the current locale and `none` otherwise. -/
def apply_language (catalog : Option (String → String)) (ns : NS) : NS :=
  match catalog with
  | some f => { ns with builtins := some (.func f) }
  | none => ns

/-- Lines 9-10 of the module: when the translator name is not a key of
`builtins.__dict__`, bind the module-level name to `gettext.gettext`. -/
def translatorGuard (ns : NS) : NS :=
  if ns.builtins.isNone then { ns with moduleNs := some (.func gettext_gettext) } else ns

/-- The state produced by executing the module body. -/
structure LoadResult where
  world : World
  ns : NS
  settings : Store
  machinist : Except PyErr Int

/-- The module body, executed top to bottom: apply the language, run the
translator-registration guard, open the settings store for
("Open Source", "FlatCAM"), and compute `machinist_setting`. The module
namespace holds no translator binding when execution starts. -/
def moduleLoad (catalog : Option (String → String)) (w : World) (b : Option PyVal) :
    LoadResult :=
  let ns1 := apply_language catalog { builtins := b, moduleNs := none }
  let ns2 := translatorGuard ns1
  let (w2, st) := QSettingsOpen w "Open Source" "FlatCAM"
  { world := w2, ns := ns2, settings := st, machinist := machinist_setting st }

theorem contains_eq_isSome (st : Store) (k : String) :
    st.contains k = (st.rawValue k).isSome := by
  induction st with
  | nil => rfl
  | cons p rest ih =>
    obtain ⟨k', v⟩ := p
    simp only [Store.contains, List.any_cons, Store.rawValue]
    by_cases h : (k' == k)
    · simp [h]
    · simp only [eq_iff_iff] at h ⊢
      simp [h, ← ih, Store.contains]

theorem machinist_setting_spec (st : Store) :
    (∀ v, st.rawValue "machinist" = some v → machinist_setting st = coerceInt v) ∧
    (st.rawValue "machinist" = none → machinist_setting st = Except.ok 0) := by
  constructor
  · intro v hv
    simp [machinist_setting, contains_eq_isSome, hv, Store.valueInt, Store.valueIntAux]
  · intro hn
    simp [machinist_setting, contains_eq_isSome, hn]

/-- C1: after module load, `machinist_setting` equals the stored value
of key "machinist" coerced to integer when that key exists in the open
store, and equals 0 when the key is absent. -/
theorem C1_machinist_after_load (c : Option (String → String)) (w : World)
    (b : Option PyVal) :
    (∀ v, (moduleLoad c w b).settings.rawValue "machinist" = some v →
      (moduleLoad c w b).machinist = coerceInt v) ∧
    ((moduleLoad c w b).settings.rawValue "machinist" = none →
      (moduleLoad c w b).machinist = Except.ok 0) := by
  have h : (moduleLoad c w b).machinist = machinist_setting (moduleLoad c w b).settings := rfl
  rw [h]
  exact machinist_setting_spec (moduleLoad c w b).settings

/-- Witness for C1 at a concrete world holding machinist = 1. -/
theorem C1_machinist_after_load_witness :
    (moduleLoad none [(("Open Source", "FlatCAM"), [("machinist", QVal.qint 1)])] none).machinist
      = coerceInt (QVal.qint 1) :=
  (C1_machinist_after_load none
    [(("Open Source", "FlatCAM"), [("machinist", QVal.qint 1)])] none).1 (QVal.qint 1) rfl

/-- C2: reading when "machinist" is absent raises no error, returns the
default 0, and leaves the store unchanged. -/
theorem C2_missing_key_read (st : Store) (h : st.rawValue "machinist" = none) :
    machinistLoad st = (st, Except.ok 0) := by
  simp [machinistLoad, (machinist_setting_spec st).2 h]

/-- Witness for C2 at the empty store. -/
theorem C2_missing_key_read_witness :
    machinistLoad ([] : Store) = (([] : Store), Except.ok 0) :=
  C2_missing_key_read [] rfl

/-- C3: the translator-registration guard leaves an already-bound
translator binding unchanged, and running it twice from any state gives
the same bindings as running it once. -/
theorem C3_guard_idempotent :
    (∀ ns v, ns.builtins = some v → translatorGuard ns = ns) ∧
    (∀ ns, translatorGuard (translatorGuard ns) = translatorGuard ns) := by
  constructor
  · intro ns v hv
    simp [translatorGuard, hv]
  · intro ns
    match hb : ns.builtins with
    | some v => simp [translatorGuard, hb]
    | none => simp [translatorGuard, hb]

/-- Witness for C3 at concrete namespace states. -/
theorem C3_guard_idempotent_witness :
    translatorGuard ⟨some (PyVal.int 1), none⟩ = ⟨some (PyVal.int 1), none⟩ ∧
    translatorGuard (translatorGuard ⟨none, none⟩) = translatorGuard ⟨none, none⟩ :=
  ⟨C3_guard_idempotent.1 ⟨some (PyVal.int 1), none⟩ (PyVal.int 1) rfl,
   C3_guard_idempotent.2 ⟨none, none⟩⟩

/-- C4: if no translator is registered in builtins, the guard binds the
module-level translator name to the identity: applied to any string it
returns it unchanged. -/
theorem C4_guard_installs_identity (ns : NS) (h : ns.builtins = none) :
    (translatorGuard ns).moduleNs = some (PyVal.func gettext_gettext) ∧
    ∀ s, (PyVal.func gettext_gettext).call s = some s := by
  refine ⟨?_, fun s => rfl⟩
  simp [translatorGuard, h]

/-- Witness for C4 at the empty namespace and the string "abc". -/
theorem C4_guard_installs_identity_witness :
    (translatorGuard ⟨none, none⟩).moduleNs = some (PyVal.func gettext_gettext) ∧
    (PyVal.func gettext_gettext).call "abc" = some "abc" :=
  ⟨(C4_guard_installs_identity ⟨none, none⟩ rfl).1,
   (C4_guard_installs_identity ⟨none, none⟩ rfl).2 "abc"⟩

/-- C5: opening the settings store changes no persisted data, opening
twice with the same pair yields the same data, and when no store existed
the open still succeeds, with a fresh empty store. -/
theorem C5_open_frame (w : World) (org app : String) :
    (QSettingsOpen w org app).1 = w ∧
    (QSettingsOpen (QSettingsOpen w org app).1 org app).2 = (QSettingsOpen w org app).2 ∧
    (List.lookup (org, app) w = none → (QSettingsOpen w org app).2 = []) := by
  refine ⟨rfl, rfl, fun h => ?_⟩
  simp [QSettingsOpen, h]

/-- Witness for C5 at the empty world. -/
theorem C5_open_frame_witness :
    (QSettingsOpen [] "Open Source" "FlatCAM").1 = ([] : World) ∧
    (QSettingsOpen [] "Open Source" "FlatCAM").2 = ([] : Store) :=
  ⟨(C5_open_frame [] "Open Source" "FlatCAM").1,
   (C5_open_frame [] "Open Source" "FlatCAM").2.2 rfl⟩

/-- C6 counterexample: with the translator name pre-bound in builtins to
the non-callable value 5 and no catalog found, the post-bootstrap
translator applied to a string does not return a string. -/
theorem C6_counterexample :
    (moduleLoad none [] (some (PyVal.int 5))).ns.translate "abc" = none := rfl

/-- C6 (amended): after bootstrap a translator binding always exists;
applying it to any string returns a string whenever a catalog was found
or every pre-bound translator binding is callable — that is, the
guarantee fails only in the counterexample's case of a non-callable
pre-binding together with a missing catalog. -/
theorem C6_amended (c : Option (String → String)) (w : World) (b : Option PyVal) :
    ((moduleLoad c w b).ns.effTranslator).isSome = true ∧
    ((c.isSome = true ∨ ∀ v, b = some v → v.isCallable = true) →
      ∀ s, ((moduleLoad c w b).ns.translate s).isSome = true) := by
  constructor
  · match c, b with
    | some f, _ => rfl
    | none, some v => rfl
    | none, none => rfl
  · intro h s
    match c, b with
    | some f, _ => rfl
    | none, none => rfl
    | none, some v =>
      have hv : v.isCallable = true := by
        rcases h with h | h
        · simp at h
        · exact h v rfl
      match v, hv with
      | .func g, _ => rfl

/-- Witness for C6 (amended): no catalog, with a callable translator
pre-bound in builtins, at the string "x". -/
theorem C6_amended_witness :
    ((moduleLoad none [] (some (PyVal.func gettext_gettext))).ns.effTranslator).isSome = true ∧
    ((moduleLoad none [] (some (PyVal.func gettext_gettext))).ns.translate "x").isSome = true :=
  ⟨(C6_amended none [] (some (PyVal.func gettext_gettext))).1,
   (C6_amended none [] (some (PyVal.func gettext_gettext))).2
     (Or.inr (fun v hv => by cases hv; rfl)) "x"⟩

/-- C7: when no catalog exists for the current locale, the localization
step changes nothing (silent fallback, no error), and after the full
bootstrap from a translator-free namespace every string translates to
itself. -/
theorem C7_missing_catalog_identity (w : World) (ns : NS) :
    apply_language none ns = ns ∧
    ∀ s, (moduleLoad none w none).ns.translate s = some s :=
  ⟨rfl, fun _ => rfl⟩

/-- C8: the guard tests only whether the builtins binding exists, never
its callability: any pre-bound builtins value is left untouched, and
with a non-callable pre-bound value (and no catalog) no callable
translator exists after the module loads. -/
theorem C8_guard_checks_binding_only :
    (∀ ns v, ns.builtins = some v → translatorGuard ns = ns) ∧
    (moduleLoad none [] (some (PyVal.str "w"))).ns.translate "abc" = none := by
  refine ⟨fun ns v hv => ?_, rfl⟩
  simp [translatorGuard, hv]

/-- Witness for C8 at a concrete pre-bound namespace. -/
theorem C8_guard_checks_binding_only_witness :
    translatorGuard ⟨some (PyVal.str "y"), none⟩ = ⟨some (PyVal.str "y"), none⟩ ∧
    (moduleLoad none [] (some (PyVal.str "w"))).ns.translate "abc" = none :=
  ⟨C8_guard_checks_binding_only.1 ⟨some (PyVal.str "y"), none⟩ (PyVal.str "y") rfl,
   C8_guard_checks_binding_only.2⟩

/-- C9: the missing-key branch of the typed read is unreachable under
the contains guard — the computed setting does not depend on what the
read would produce for a missing key — and a missing key yields 0
through the else branch alone. -/
theorem C9_missing_branch_unreachable :
    (∀ (st : Store) (m : Except PyErr Int),
      (if st.contains "machinist" then st.valueIntAux "machinist" m else Except.ok 0)
        = machinist_setting st) ∧
    (∀ st : Store, st.contains "machinist" = false → machinist_setting st = Except.ok 0) := by
  constructor
  · intro st m
    match hc : st.contains "machinist" with
    | false => simp [machinist_setting, hc]
    | true =>
      have hs : (st.rawValue "machinist").isSome := by rw [← contains_eq_isSome, hc]
      match hv : st.rawValue "machinist" with
      | some v =>
        simp [machinist_setting, hc, Store.valueInt, Store.valueIntAux, hv]
      | none => rw [hv] at hs; exact absurd hs (by simp)
  · intro st hc
    simp [machinist_setting, hc]

/-- Witness for C9 at concrete stores, with the missing-key result set
to an error. -/
theorem C9_missing_branch_unreachable_witness :
    (if Store.contains [("machinist", QVal.qint 7)] "machinist"
      then Store.valueIntAux [("machinist", QVal.qint 7)] "machinist" (Except.error PyErr.typeError)
      else Except.ok 0) = machinist_setting [("machinist", QVal.qint 7)] ∧
    machinist_setting ([] : Store) = Except.ok 0 :=
  ⟨C9_missing_branch_unreachable.1 [("machinist", QVal.qint 7)] (Except.error PyErr.typeError),
   C9_missing_branch_unreachable.2 [] rfl⟩

/-- C10: module load is deterministic: two runs from the same catalog
state, the same persisted world and the same initial builtins binding
produce the same machinist value, the same translator behavior, and the
same whole result. -/
theorem C10_deterministic (c : Option (String → String)) (w : World) (b : Option PyVal)
    (r1 r2 : LoadResult) (h1 : r1 = moduleLoad c w b) (h2 : r2 = moduleLoad c w b) :
    r1.machinist = r2.machinist ∧ r1.ns = r2.ns ∧ r1 = r2 := by
  subst h1; subst h2; exact ⟨rfl, rfl, rfl⟩

/-- Witness for C10 at a concrete run. -/
theorem C10_deterministic_witness :
    (moduleLoad none [] none).machinist = (moduleLoad none [] none).machinist ∧
    (moduleLoad none [] none).ns = (moduleLoad none [] none).ns ∧
    moduleLoad none [] none = moduleLoad none [] none :=
  C10_deterministic none [] none (moduleLoad none [] none) (moduleLoad none [] none) rfl rfl
